import Mathlib

/-!
Verification of the resume retrieval application (`src/app.py`).

The Python source is shallowly embedded: JSON dictionaries become
structures whose fields are `Option`-valued exactly where the source
accesses them fallibly (mandatory indexing d[k] raises `KeyError`,
modelled with `Except String`; d.get(k, default) is total, modelled with
`Option.getD`).  Streamlit rendering is modelled by the data it would
display.  The FAISS vector index is an external library, so its `search`
contract is modelled from the spec (marked below).
-/

/-- A metadata value: Python scalars and string lists as they occur in
`create_documents`. -/
inductive MValue where
  | str : String → MValue
  | strList : List String → MValue
  | int : Int → MValue
deriving DecidableEq, Repr

/-- A langchain `Document`: rendered text plus an ordered metadata mapping
(Python `dict`, insertion ordered, unique keys). -/
structure Document where
  page_content : String
  metadata : List (String × MValue)
deriving DecidableEq, Repr

/-- Insert key `k` with value `v` into a Python-dict style association list:
if `k` is present its value is updated in place, otherwise the pair is
appended, matching `dict` literal semantics including `**` spreads. -/
def insertKV : List (String × MValue) → String → MValue → List (String × MValue)
  | [], k, v => [(k, v)]
  | (k', v') :: rest, k, v =>
      if k' = k then (k', v) :: rest else (k', v') :: insertKV rest k v

/-- Build a Python `dict` from the key/value pairs of a dict literal,
later occurrences of a key overwriting earlier ones in place. -/
def pyDict (l : List (String × MValue)) : List (String × MValue) :=
  l.foldl (fun d kv => insertKV d kv.1 kv.2) []

/-- The basics sub-object of the resume: fields read with mandatory
indexing. -/
structure Basics where
  name : String
  summary : String
deriving DecidableEq, Repr

/-- One employment highlight; `technologies` and `metrics` are read with
`.get(..., default)` in the source, hence optional. Metric values are the
numeric achievement metrics spread into the metadata. -/
structure Highlight where
  achievement : String
  technologies : Option (List String)
  metrics : Option (List (String × Int))
deriving DecidableEq, Repr

/-- One position inside a company. -/
structure Position where
  title : String
  highlights : List Highlight
deriving DecidableEq, Repr

/-- One employment entry. -/
structure Company where
  company : String
  positions : List Position
deriving DecidableEq, Repr

/-- One technical-skill category. -/
structure SkillCategory where
  name : String
  experience : String
  projects : Int
  items : List String
deriving DecidableEq, Repr

/-- The `technical_skills` object; `categories` is read with mandatory
indexing in `create_documents` but never validated, hence optional here. -/
structure TechnicalSkills where
  categories : Option (List SkillCategory)
deriving DecidableEq, Repr

/-- One project achievement entry. -/
structure Achievement where
  description : String
  impact : String
deriving DecidableEq, Repr

/-- One project; `technologies`, `achievements` and `duration` are read
with `.get(..., default)` in the source, hence optional. -/
structure Project where
  name : String
  role : String
  technologies : Option (List String)
  achievements : Option (List Achievement)
  duration : Option String
deriving DecidableEq, Repr

/-- The whole resume record.  Every top-level key the source dereferences
is optional: a missing one raises `KeyError` at the point of access. -/
structure Resume where
  basics : Option Basics
  employment : Option (List Company)
  technical_skills : Option TechnicalSkills
  projects : Option (List Project)
deriving DecidableEq, Repr

/-- Mandatory dictionary indexing `d[k]`: `KeyError` when absent. -/
def keyIndex (k : String) : Option α → Except String α
  | some a => Except.ok a
  | none => Except.error ("KeyError: " ++ k)

/-- The overview document appended first in `create_documents`. -/
def overviewDoc (b : Basics) : Document :=
  { page_content := "Name: " ++ b.name ++ "\nSummary: " ++ b.summary,
    metadata := pyDict [("section", MValue.str "summary"), ("type", MValue.str "overview")] }

/-- The experience document appended for one (company, position, highlight)
triple: text from the three f-string lines, metadata dict with the fixed
keys followed by the dict spread of the optional metrics mapping. -/
def experienceDoc (companyName : String) (title : String) (h : Highlight) : Document :=
  { page_content :=
      title ++ " at " ++ companyName ++ ":\n" ++
      "Achievement: " ++ h.achievement ++ "\n" ++
      "Technologies: " ++ String.intercalate ", " (h.technologies.getD []) ++ "\n",
    metadata := pyDict
      ([("type", MValue.str "experience"),
        ("company", MValue.str companyName),
        ("role", MValue.str title),
        ("technologies", MValue.strList (h.technologies.getD []))] ++
       (h.metrics.getD []).map (fun m => (m.1, MValue.int m.2))) }

/-- The skills document appended for one category. -/
def skillDoc (c : SkillCategory) : Document :=
  { page_content :=
      c.name ++ " (" ++ c.experience ++ " experience):\n" ++
      "Used in " ++ toString c.projects ++ " projects: " ++ String.intercalate ", " c.items,
    metadata := pyDict
      [("type", MValue.str "skills"),
       ("category", MValue.str c.name),
       ("experience", MValue.str c.experience),
       ("projects", MValue.int c.projects)] }

/-- The project document appended for one project. -/
def projectDoc (p : Project) : Document :=
  { page_content :=
      "Project: " ++ p.name ++ "\nRole: " ++ p.role ++ "\n" ++
      "Technologies: " ++ String.intercalate ", " (p.technologies.getD []) ++ "\n" ++
      "Achievements:\n- " ++ String.intercalate "\n- "
        ((p.achievements.getD []).map (fun a => a.description ++ " (" ++ a.impact ++ ")")),
    metadata := pyDict
      [("type", MValue.str "project"),
       ("technologies", MValue.strList (p.technologies.getD [])),
       ("duration", MValue.str (p.duration.getD "Unknown"))] }

/-- `create_documents(resume)` from `src/app.py`: builds the `docs` list by
appending, section by section, in source evaluation order; any mandatory
dictionary access may raise `KeyError`. -/
def create_documents (resume : Resume) : Except String (List Document) := do
  let b ← keyIndex "basics" resume.basics
  let docs := [overviewDoc b]
  let employment ← keyIndex "employment" resume.employment
  let docs := employment.foldl (fun acc c =>
      c.positions.foldl (fun acc2 p =>
        p.highlights.foldl (fun acc3 h =>
          acc3 ++ [experienceDoc c.company p.title h]) acc2) acc) docs
  let ts ← keyIndex "technical_skills" resume.technical_skills
  let cats ← keyIndex "categories" ts.categories
  let docs := cats.foldl (fun acc c => acc ++ [skillDoc c]) docs
  let projects ← keyIndex "projects" resume.projects
  let docs := projects.foldl (fun acc p => acc ++ [projectDoc p]) docs
  return docs

/-- The three required top-level fields checked by `load_resume`. -/
def requiredFields : List String := ["basics", "employment", "technical_skills"]

/-- `field in data` for the keys `load_resume` queries. -/
def hasField (data : Resume) : String → Bool
  | "basics" => data.basics.isSome
  | "employment" => data.employment.isSome
  | "technical_skills" => data.technical_skills.isSome
  | _ => false

/-- The validation loop of `load_resume`: first missing field raises
`ValueError("Missing required field: ...")`. -/
def checkFields (data : Resume) : List String → Except String Unit
  | [] => Except.ok ()
  | f :: rest =>
      if hasField data f then checkFields data rest
      else Except.error ("Missing required field: " ++ f)

/-- The validation of `load_resume`: a raised error is caught and shown
by st.error with the prefix "Error loading resume: " followed by st.stop,
so the load fails with the wrapped message and returns no data.
(The file reading itself is I/O and is outside the model; the already
parsed record is the input.) -/
def load_resume (data : Resume) : Except String Resume :=
  match checkFields data requiredFields with
  | Except.ok _ => Except.ok data
  | Except.error e => Except.error ("Error loading resume: " ++ e)

/-- The load-then-normalize prefix of `main()`: `load_resume` runs first,
and only on success does `create_documents` run.  An error aborts before
any document (and hence any index) is created. -/
def main_pipeline (data : Resume) : Except String (List Document) := do
  let r ← load_resume data
  create_documents r

/-- What `display_results` shows: the primary answer text, the two
conditional metadata lines (present iff the key is in the metadata), and
the additional-match texts from `results[1:]`. -/
structure Rendered where
  primary_content : String
  technologies_shown : Option MValue
  company_shown : Option MValue
  additional : List String
deriving DecidableEq, Repr

/-- `display_results(results)` from `src/app.py`: unconditionally reads
`results[0]` (an `IndexError` on an empty list), then renders. -/
def display_results (results : List Document) : Except String Rendered :=
  match results with
  | [] => Except.error "IndexError: list index out of range"
  | primary :: rest =>
      Except.ok
        { primary_content := primary.page_content,
          technologies_shown := List.lookup "technologies" primary.metadata,
          company_shown := List.lookup "company" primary.metadata,
          additional := rest.map (fun d => d.page_content) }

/-- Modelled from the spec: the Vector Index is the external FAISS library
(only its call site `vector_store.similarity_search(query, k=3)` is in
`src/app.py`), so distances and search follow the Vector Index contract
of the spec.  Squared Euclidean (L2) distance between two vectors; the
spec allows squared distance (monotonic equivalence is sufficient). -/
def dist2 (q v : List ℚ) : ℚ :=
  (List.zipWith (fun a b => (a - b) ^ 2) q v).sum

/-- The search ordering on (handle, distance) pairs: ascending distance,
ties broken by ascending handle. -/
def searchRel (a b : Nat × ℚ) : Prop :=
  a.2 < b.2 ∨ (a.2 = b.2 ∧ a.1 ≤ b.1)

instance : DecidableRel searchRel := fun a b =>
  inferInstanceAs (Decidable (a.2 < b.2 ∨ (a.2 = b.2 ∧ a.1 ≤ b.1)))

instance : IsTotal (Nat × ℚ) searchRel where
  total a b := by
    rcases lt_trichotomy a.2 b.2 with h | h | h
    · exact Or.inl (Or.inl h)
    · rcases Nat.le_total a.1 b.1 with hn | hn
      · exact Or.inl (Or.inr ⟨h, hn⟩)
      · exact Or.inr (Or.inr ⟨h.symm, hn⟩)
    · exact Or.inr (Or.inl h)

instance : IsTrans (Nat × ℚ) searchRel where
  trans a b c hab hbc := by
    rcases hab with hab | ⟨hab, hab2⟩
    · rcases hbc with hbc | ⟨hbc, _⟩
      · exact Or.inl (hab.trans hbc)
      · exact Or.inl (hbc ▸ hab)
    · rcases hbc with hbc | ⟨hbc, hbc2⟩
      · exact Or.inl (hab ▸ hbc)
      · exact Or.inr ⟨hab.trans hbc, hab2.trans hbc2⟩

/-- Modelled from the spec: `search(query_vector, k)` of the Vector Index.
Handles are positions in the built vector list; results are all (handle,
distance) pairs sorted by ascending distance with ties broken by ascending
handle, truncated to `k`. -/
def index_search (vecs : List (List ℚ)) (q : List ℚ) (k : Nat) : List (Nat × ℚ) :=
  (List.insertionSort searchRel ((vecs.map (dist2 q)).enum)).take k

/-- The query step of `main()` (`src/app.py` line 130): the index is
searched with the default `k = 3`. -/
def query_pipeline (vecs : List (List ℚ)) (q : List ℚ) : List (Nat × ℚ) :=
  index_search vecs q 3

/-- The experience documents of a record, structured: one per
(company, position, highlight) triple in nested order. -/
def experience_docs (employment : List Company) : List Document :=
  employment.flatMap (fun c => c.positions.flatMap (fun p =>
    p.highlights.map (fun h => experienceDoc c.company p.title h)))

/-- The skills documents of a record, structured: one per category. -/
def skill_docs (cats : List SkillCategory) : List Document :=
  cats.map skillDoc

/-- The project documents of a record, structured: one per project. -/
def project_docs (projs : List Project) : List Document :=
  projs.map projectDoc

/-- Total number of highlights across all employment positions. -/
def total_highlights (employment : List Company) : Nat :=
  (employment.map (fun c => (c.positions.map (fun p => p.highlights.length)).sum)).sum

theorem foldl_append_map (f : α → β) (l : List α) (acc : List β) :
    List.foldl (fun a x => a ++ [f x]) acc l = acc ++ l.map f := by
  induction l generalizing acc with
  | nil => simp
  | cons x xs ih => simp [ih]

theorem foldl_append_flatMap (g : α → List β) (l : List α) (acc : List β) :
    List.foldl (fun a x => a ++ g x) acc l = acc ++ l.flatMap g := by
  induction l generalizing acc with
  | nil => simp
  | cons x xs ih => simp [ih]

/-- When every mandatory key is present, `create_documents` succeeds and
its output decomposes into the four sections in source order. -/
theorem create_documents_ok (r : Resume) (b : Basics) (emp : List Company)
    (ts : TechnicalSkills) (cats : List SkillCategory) (projs : List Project)
    (hb : r.basics = some b) (he : r.employment = some emp)
    (hts : r.technical_skills = some ts) (hc : ts.categories = some cats)
    (hp : r.projects = some projs) :
    create_documents r =
      Except.ok ([overviewDoc b] ++ experience_docs emp ++
        skill_docs cats ++ project_docs projs) := by
  simp only [create_documents, hb, he, hts, hc, hp, keyIndex, bind, Except.bind,
    pure, Except.pure]
  simp only [foldl_append_map, foldl_append_flatMap, experience_docs,
    skill_docs, project_docs, List.append_assoc]

theorem length_experience_docs (emp : List Company) :
    (experience_docs emp).length = total_highlights emp := by
  simp [experience_docs, total_highlights, Function.comp_def]

theorem lookup_insertKV_self (d : List (String × MValue)) (k : String) (v : MValue) :
    List.lookup k (insertKV d k v) = some v := by
  induction d with
  | nil => simp [insertKV, List.lookup]
  | cons kv t ih =>
      by_cases h : kv.1 = k
      · simp [insertKV, h, List.lookup]
      · have hb : (k == kv.1) = false := by simp [Ne.symm h]
        simp only [insertKV]
        rw [if_neg h]
        simp [List.lookup, hb, ih]

theorem lookup_insertKV_ne (d : List (String × MValue)) (k : String) (v : MValue)
    (k₀ : String) (h : k₀ ≠ k) :
    List.lookup k₀ (insertKV d k v) = List.lookup k₀ d := by
  induction d with
  | nil =>
      have hb : (k₀ == k) = false := by simp [h]
      simp [insertKV, List.lookup, hb]
  | cons kv t ih =>
      by_cases hk : kv.1 = k
      · subst hk
        have hb : (k₀ == kv.1) = false := by simp [h]
        simp [insertKV, List.lookup, hb]
      · simp only [insertKV]
        rw [if_neg hk]
        by_cases h₀ : kv.1 = k₀
        · simp [List.lookup, h₀]
        · have hb : (k₀ == kv.1) = false := by simp [Ne.symm h₀]
          simp [List.lookup, hb, ih]

theorem lookup_foldl_insertKV_of_not_mem (l : List (String × MValue))
    (d : List (String × MValue)) (k₀ : String) (h : ∀ kv ∈ l, kv.1 ≠ k₀) :
    List.lookup k₀ (l.foldl (fun d kv => insertKV d kv.1 kv.2) d) = List.lookup k₀ d := by
  induction l generalizing d with
  | nil => rfl
  | cons kv t ih =>
      simp only [List.foldl_cons]
      rw [ih _ (fun x hx => h x (List.mem_cons_of_mem kv hx))]
      exact lookup_insertKV_ne d kv.1 kv.2 k₀ (Ne.symm (h kv (List.mem_cons_self kv t)))

theorem lookup_foldl_insertKV_mem (l : List (String × MValue))
    (d : List (String × MValue)) (hnd : (l.map Prod.fst).Nodup)
    (kv : String × MValue) (hkv : kv ∈ l) :
    List.lookup kv.1 (l.foldl (fun d p => insertKV d p.1 p.2) d) = some kv.2 := by
  induction l generalizing d with
  | nil => cases hkv
  | cons hd t ih =>
      simp only [List.foldl_cons]
      rcases List.mem_cons.mp hkv with rfl | hmem
      · have hnotin : ∀ x ∈ t, x.1 ≠ kv.1 := by
          intro x hx
          have := (List.nodup_cons.mp hnd).1
          intro hc
          exact this (hc ▸ List.mem_map_of_mem Prod.fst hx)
        rw [lookup_foldl_insertKV_of_not_mem t _ kv.1 hnotin]
        exact lookup_insertKV_self d kv.1 kv.2
      · exact ih _ (List.nodup_cons.mp hnd).2 hmem

/-- Claim C1: for every k at least 1 and a built index of N vectors,
`index_search` returns min(k, N) entries, sorted by non-decreasing
Euclidean (L2) distance to the query, ties broken by ascending handle,
and the query pipeline invokes it with the default k = 3. -/
theorem C1_search_contract (vecs : List (List ℚ)) (q : List ℚ) (k : Nat)
    (_hk : 1 ≤ k) :
    (index_search vecs q k).length = min k vecs.length ∧
    (index_search vecs q k).Pairwise
      (fun a b => a.2 ≤ b.2 ∧ (a.2 = b.2 → a.1 ≤ b.1)) ∧
    query_pipeline vecs q = index_search vecs q 3 := by
  refine ⟨?_, ?_, rfl⟩
  · simp [index_search]
  · have hs : List.Sorted searchRel
        (List.insertionSort searchRel ((vecs.map (dist2 q)).enum)) :=
      List.sorted_insertionSort searchRel _
    have ht : (index_search vecs q k).Pairwise searchRel :=
      List.Pairwise.sublist (List.take_sublist _ _) hs
    refine ht.imp ?_
    intro a b hab
    rcases hab with h | ⟨h1, h2⟩
    · exact ⟨le_of_lt h, fun he => absurd he (ne_of_lt h)⟩
    · exact ⟨le_of_eq h1, fun _ => h2⟩

/-- Witness for C1 at a concrete two-vector index and k = 1. -/
theorem C1_search_contract_witness :
    1 ≤ 1 ∧
    ((index_search [[(1 : ℚ)], [0]] [0] 1).length =
        min 1 ([[(1 : ℚ)], [0]] : List (List ℚ)).length ∧
     (index_search [[(1 : ℚ)], [0]] [0] 1).Pairwise
       (fun a b => a.2 ≤ b.2 ∧ (a.2 = b.2 → a.1 ≤ b.1)) ∧
     query_pipeline [[(1 : ℚ)], [0]] [0] = index_search [[(1 : ℚ)], [0]] [0] 3) :=
  ⟨by decide, C1_search_contract [[(1 : ℚ)], [0]] [0] 1 (by decide)⟩

/-- A record holding all three required top-level fields but no projects
key: the validated shape the C2 claim quantifies over. -/
def rec2cx : Resume :=
  { basics := some { name := "A", summary := "S" },
    employment := some [],
    technical_skills := some { categories := some [] },
    projects := none }

/-- Claim C2 (counterexample): a record with the three required top-level
fields on which `create_documents` raises instead of producing the claimed
unit count, because the projects key is absent. -/
theorem C2_counterexample :
    rec2cx.basics.isSome = true ∧ rec2cx.employment.isSome = true ∧
    rec2cx.technical_skills.isSome = true ∧
    create_documents rec2cx = Except.error "KeyError: projects" :=
  ⟨rfl, rfl, rfl, rfl⟩

/-- Claim C2 (amended): for every record that contains the three required
top-level fields and additionally a categories list under technical
skills and a projects list, `create_documents` produces 1 (overview) +
total highlight count + skill-category count + project count units, and
two calls on the same record yield the same count. -/
theorem C2_unit_count (r : Resume) (b : Basics) (emp : List Company)
    (ts : TechnicalSkills) (cats : List SkillCategory) (projs : List Project)
    (hb : r.basics = some b) (he : r.employment = some emp)
    (hts : r.technical_skills = some ts) (hc : ts.categories = some cats)
    (hp : r.projects = some projs) :
    (∃ docs, create_documents r = Except.ok docs ∧
      docs.length = 1 + total_highlights emp + cats.length + projs.length) ∧
    (∀ docs1 docs2, create_documents r = Except.ok docs1 →
      create_documents r = Except.ok docs2 → docs1.length = docs2.length) := by
  have hok := create_documents_ok r b emp ts cats projs hb he hts hc hp
  constructor
  · refine ⟨_, hok, ?_⟩
    simp [length_experience_docs, skill_docs, project_docs]
    omega
  · intro docs1 docs2 h1 h2
    rw [h1] at h2
    rw [Except.ok.inj h2]

/-- A small fully populated record used to witness the C2 count. -/
def rec2w : Resume :=
  { basics := some { name := "A", summary := "S" },
    employment := some
      [{ company := "Acme",
         positions :=
           [{ title := "Dev",
              highlights :=
                [{ achievement := "Led migration to AWS",
                   technologies := some ["AWS"],
                   metrics := some [("cost_reduction", 40)] }] }] }],
    technical_skills := some
      { categories := some
          [{ name := "Cloud", experience := "5 years", projects := 3,
             items := ["AWS", "GCP"] }] },
    projects := some
      [{ name := "P", role := "Lead", technologies := some ["AWS"],
         achievements := some [{ description := "desc", impact := "imp" }],
         duration := none }] }

/-- Witness for C2 on a concrete record: one highlight, one category, one
project, so four units. -/
theorem C2_unit_count_witness :
    rec2w.basics = some { name := "A", summary := "S" } ∧
    ((∃ docs, create_documents rec2w = Except.ok docs ∧
        docs.length = 1 + total_highlights ((rec2w.employment).getD []) +
          1 + 1) ∧
      (∀ docs1 docs2, create_documents rec2w = Except.ok docs1 →
        create_documents rec2w = Except.ok docs2 →
        docs1.length = docs2.length)) :=
  ⟨rfl, C2_unit_count rec2w _ _ _ _ _ rfl rfl rfl rfl rfl⟩

/-- Claim C3: a record missing one of the three required top-level fields
fails the load with an error naming the missing field, and the pipeline
aborts with that same error before normalization, so no document (and
hence no index) is created. -/
theorem C3_missing_field_fails (r : Resume)
    (hmiss : r.basics = none ∨ r.employment = none ∨ r.technical_skills = none) :
    ∃ f, ((f = "basics" ∧ r.basics = none) ∨
          (f = "employment" ∧ r.employment = none) ∨
          (f = "technical_skills" ∧ r.technical_skills = none)) ∧
      load_resume r =
        Except.error ("Error loading resume: " ++ ("Missing required field: " ++ f)) ∧
      main_pipeline r =
        Except.error ("Error loading resume: " ++ ("Missing required field: " ++ f)) := by
  cases hb : r.basics with
  | none =>
      refine ⟨"basics", Or.inl ⟨rfl, rfl⟩, ?_, ?_⟩ <;>
        simp [load_resume, main_pipeline, checkFields, requiredFields, hasField, hb,
          bind, Except.bind]
  | some b =>
      cases he : r.employment with
      | none =>
          refine ⟨"employment", Or.inr (Or.inl ⟨rfl, rfl⟩), ?_, ?_⟩ <;>
            simp [load_resume, main_pipeline, checkFields, requiredFields, hasField,
              hb, he, bind, Except.bind]
      | some emp =>
          cases hts : r.technical_skills with
          | none =>
              refine ⟨"technical_skills", Or.inr (Or.inr ⟨rfl, rfl⟩), ?_, ?_⟩ <;>
                simp [load_resume, main_pipeline, checkFields, requiredFields, hasField,
                  hb, he, hts, bind, Except.bind]
          | some ts =>
              rw [hb, he, hts] at hmiss
              rcases hmiss with h | h | h <;> cases h

/-- The scenario record of the spec: technical_skills is missing. -/
def rec3w : Resume :=
  { basics := some { name := "A", summary := "S" },
    employment := some [],
    technical_skills := none,
    projects := some [] }

/-- Witness for C3 on the record missing technical_skills. -/
theorem C3_missing_field_fails_witness :
    (rec3w.basics = none ∨ rec3w.employment = none ∨ rec3w.technical_skills = none) ∧
    (∃ f, ((f = "basics" ∧ rec3w.basics = none) ∨
           (f = "employment" ∧ rec3w.employment = none) ∨
           (f = "technical_skills" ∧ rec3w.technical_skills = none)) ∧
      load_resume rec3w =
        Except.error ("Error loading resume: " ++ ("Missing required field: " ++ f)) ∧
      main_pipeline rec3w =
        Except.error ("Error loading resume: " ++ ("Missing required field: " ++ f))) :=
  ⟨Or.inr (Or.inr rfl), C3_missing_field_fails rec3w (Or.inr (Or.inr rfl))⟩

/-- The experience-unit text exactly as the format string of the spec
sentence reads: title, " at ", company, ": Achievement: ", achievement,
". Technologies: ", comma-joined list (refinement definition, written
from the words of the spec for comparison with the source). -/
def spec_experience_text (title company achievement : String)
    (techs : List String) : String :=
  title ++ " at " ++ company ++ ": Achievement: " ++ achievement ++
    ". Technologies: " ++ String.intercalate ", " techs

/-- Claim C4 (counterexample): on a concrete highlight the text the code
produces differs from the format the claim states (the code separates the
segments with newlines and ends with a newline, not with the punctuation
of the claimed format). -/
theorem C4_counterexample :
    (experienceDoc "Acme" "Dev"
        { achievement := "Led migration to AWS", technologies := some ["AWS"],
          metrics := none }).page_content ≠
      spec_experience_text "Dev" "Acme" "Led migration to AWS" ["AWS"] := by
  decide

/-- Claim C4 (amended): for every (company, position, highlight) triple of
a record that normalizes successfully, the produced unit text is
title, " at ", company, ":", newline, "Achievement: ", achievement,
newline, "Technologies: ", comma-joined list, newline. -/
theorem C4_experience_text (r : Resume) (b : Basics) (emp : List Company)
    (ts : TechnicalSkills) (cats : List SkillCategory) (projs : List Project)
    (c : Company) (p : Position) (h : Highlight)
    (hb : r.basics = some b) (he : r.employment = some emp)
    (hts : r.technical_skills = some ts) (hc : ts.categories = some cats)
    (hp : r.projects = some projs)
    (hc1 : c ∈ emp) (hp1 : p ∈ c.positions) (hh1 : h ∈ p.highlights) :
    ∃ docs, create_documents r = Except.ok docs ∧
      experienceDoc c.company p.title h ∈ docs ∧
      (experienceDoc c.company p.title h).page_content =
        p.title ++ " at " ++ c.company ++ ":\n" ++
        "Achievement: " ++ h.achievement ++ "\n" ++
        "Technologies: " ++ String.intercalate ", " (h.technologies.getD []) ++ "\n" := by
  refine ⟨_, create_documents_ok r b emp ts cats projs hb he hts hc hp, ?_, rfl⟩
  have hmem : experienceDoc c.company p.title h ∈ experience_docs emp := by
    simp only [experience_docs, List.mem_flatMap, List.mem_map]
    exact ⟨c, hc1, p, hp1, h, hh1, rfl⟩
  simp [List.mem_append, hmem]

/-- The highlight used to witness C4. -/
def c4h : Highlight :=
  { achievement := "Led migration to AWS", technologies := some ["AWS"],
    metrics := none }

/-- The position used to witness C4. -/
def c4p : Position := { title := "Dev", highlights := [c4h] }

/-- The company used to witness C4. -/
def c4c : Company := { company := "Acme", positions := [c4p] }

/-- The record used to witness C4: the Acme / Dev / AWS-migration triple. -/
def rec4w : Resume :=
  { basics := some { name := "A", summary := "S" },
    employment := some [c4c],
    technical_skills := some { categories := some [] },
    projects := some [] }

/-- Witness for the amended C4 on the Acme record. -/
theorem C4_experience_text_witness :
    (rec4w.basics = some { name := "A", summary := "S" } ∧
     c4c ∈ [c4c] ∧ c4p ∈ c4c.positions ∧ c4h ∈ c4p.highlights) ∧
    (∃ docs, create_documents rec4w = Except.ok docs ∧
      experienceDoc c4c.company c4p.title c4h ∈ docs ∧
      (experienceDoc c4c.company c4p.title c4h).page_content =
        c4p.title ++ " at " ++ c4c.company ++ ":\n" ++
        "Achievement: " ++ c4h.achievement ++ "\n" ++
        "Technologies: " ++ String.intercalate ", " (c4h.technologies.getD []) ++ "\n") :=
  ⟨⟨rfl, List.mem_singleton.mpr rfl, List.mem_singleton.mpr rfl,
    List.mem_singleton.mpr rfl⟩,
   C4_experience_text rec4w _ _ _ _ _ c4c c4p c4h rfl rfl rfl rfl rfl
     (List.mem_singleton.mpr rfl) (List.mem_singleton.mpr rfl)
     (List.mem_singleton.mpr rfl)⟩

/-- Claim C5: on every record that normalizes successfully the units come
in the fixed order overview, then one unit per (company, position,
highlight) triple in nested record order, then one unit per skill
category, then one unit per project; and repeated calls on the same
record give the identical list. -/
theorem C5_unit_order (r : Resume) (b : Basics) (emp : List Company)
    (ts : TechnicalSkills) (cats : List SkillCategory) (projs : List Project)
    (hb : r.basics = some b) (he : r.employment = some emp)
    (hts : r.technical_skills = some ts) (hc : ts.categories = some cats)
    (hp : r.projects = some projs) :
    create_documents r =
      Except.ok ([overviewDoc b] ++ experience_docs emp ++
        skill_docs cats ++ project_docs projs) ∧
    (∀ docs1 docs2, create_documents r = Except.ok docs1 →
      create_documents r = Except.ok docs2 → docs1 = docs2) := by
  refine ⟨create_documents_ok r b emp ts cats projs hb he hts hc hp, ?_⟩
  intro docs1 docs2 h1 h2
  rw [h1] at h2
  exact Except.ok.inj h2

/-- The record used to witness C5. -/
def rec5w : Resume :=
  { basics := some { name := "N", summary := "S" },
    employment := some
      [{ company := "C1",
         positions :=
           [{ title := "T1",
              highlights :=
                [{ achievement := "H1", technologies := none, metrics := none },
                 { achievement := "H2", technologies := some ["a"], metrics := none }] }] }],
    technical_skills := some
      { categories := some
          [{ name := "K1", experience := "2 years", projects := 1, items := ["x"] }] },
    projects := some
      [{ name := "P1", role := "R1", technologies := none, achievements := none,
         duration := some "3 months" }] }

/-- Witness for C5 on a concrete record. -/
theorem C5_unit_order_witness :
    rec5w.basics = some { name := "N", summary := "S" } ∧
    (create_documents rec5w =
      Except.ok ([overviewDoc { name := "N", summary := "S" }] ++
        experience_docs ((rec5w.employment).getD []) ++
        skill_docs (((rec5w.technical_skills).getD { categories := none }).categories.getD []) ++
        project_docs ((rec5w.projects).getD [])) ∧
    (∀ docs1 docs2, create_documents rec5w = Except.ok docs1 →
      create_documents rec5w = Except.ok docs2 → docs1 = docs2)) :=
  ⟨rfl, C5_unit_order rec5w _ _ _ _ _ rfl rfl rfl rfl rfl⟩

/-- Claim C6: a highlight or project missing an optional field renders it
as an empty joined list and never raises: normalization succeeds on any
record whose mandatory keys are present, a highlight without technologies
renders identically to one with an empty technologies list, and likewise
for a project without technologies or without achievements. -/
theorem C6_optional_fields_default (r : Resume) (b : Basics) (emp : List Company)
    (ts : TechnicalSkills) (cats : List SkillCategory) (projs : List Project)
    (cn t : String) (h : Highlight) (p : Project)
    (hb : r.basics = some b) (he : r.employment = some emp)
    (hts : r.technical_skills = some ts) (hc : ts.categories = some cats)
    (hp : r.projects = some projs)
    (hht : h.technologies = none) (hpt : p.technologies = none)
    (hpa : p.achievements = none) :
    (∃ docs, create_documents r = Except.ok docs) ∧
    experienceDoc cn t h = experienceDoc cn t { h with technologies := some [] } ∧
    (experienceDoc cn t h).page_content =
      t ++ " at " ++ cn ++ ":\n" ++ "Achievement: " ++ h.achievement ++ "\n" ++
      "Technologies: " ++ "" ++ "\n" ∧
    projectDoc p =
      projectDoc { p with technologies := some [], achievements := some [] } := by
  refine ⟨⟨_, create_documents_ok r b emp ts cats projs hb he hts hc hp⟩, ?_, ?_, ?_⟩
  · simp [experienceDoc, hht]
  · have hi : String.intercalate ", " ([] : List String) = "" := rfl
    simp [experienceDoc, hht, hi]
  · simp [projectDoc, hpt, hpa]

/-- The record used to witness C6: its single highlight lacks
technologies, its single project lacks technologies and achievements. -/
def rec6w : Resume :=
  { basics := some { name := "N", summary := "S" },
    employment := some
      [{ company := "C1",
         positions :=
           [{ title := "T1",
              highlights :=
                [{ achievement := "H1", technologies := none, metrics := none }] }] }],
    technical_skills := some { categories := some [] },
    projects := some
      [{ name := "P1", role := "R1", technologies := none, achievements := none,
         duration := none }] }

/-- The highlight used to witness C6. -/
def c6h : Highlight := { achievement := "H1", technologies := none, metrics := none }

/-- The project used to witness C6. -/
def c6p : Project :=
  { name := "P1", role := "R1", technologies := none, achievements := none,
    duration := none }

/-- Witness for C6 on a concrete record, highlight and project. -/
theorem C6_optional_fields_default_witness :
    (c6h.technologies = none ∧ c6p.technologies = none ∧ c6p.achievements = none) ∧
    ((∃ docs, create_documents rec6w = Except.ok docs) ∧
     experienceDoc "C1" "T1" c6h =
       experienceDoc "C1" "T1" { c6h with technologies := some [] } ∧
     (experienceDoc "C1" "T1" c6h).page_content =
       "T1" ++ " at " ++ "C1" ++ ":\n" ++ "Achievement: " ++ c6h.achievement ++ "\n" ++
       "Technologies: " ++ "" ++ "\n" ∧
     projectDoc c6p =
       projectDoc { c6p with technologies := some [], achievements := some [] }) :=
  ⟨⟨rfl, rfl, rfl⟩,
   C6_optional_fields_default rec6w _ _ _ _ _ "C1" "T1" c6h c6p
     rfl rfl rfl rfl rfl rfl rfl rfl⟩

theorem experience_metadata_lookup (cn t : String) (h : Highlight)
    (hnd : (((h.metrics).getD []).map Prod.fst).Nodup)
    (hdisj : ∀ kv ∈ (h.metrics).getD [],
      kv.1 ∉ (["type", "company", "role", "technologies"] : List String)) :
    List.lookup "type" (experienceDoc cn t h).metadata = some (MValue.str "experience") ∧
    List.lookup "company" (experienceDoc cn t h).metadata = some (MValue.str cn) ∧
    List.lookup "role" (experienceDoc cn t h).metadata = some (MValue.str t) ∧
    List.lookup "technologies" (experienceDoc cn t h).metadata =
      some (MValue.strList ((h.technologies).getD [])) ∧
    ∀ kv ∈ (h.metrics).getD [],
      List.lookup kv.1 (experienceDoc cn t h).metadata = some (MValue.int kv.2) := by
  have hmeta : (experienceDoc cn t h).metadata =
      List.foldl (fun d p => insertKV d p.1 p.2)
        [("type", MValue.str "experience"), ("company", MValue.str cn),
         ("role", MValue.str t),
         ("technologies", MValue.strList ((h.technologies).getD []))]
        (((h.metrics).getD []).map (fun m => (m.1, MValue.int m.2))) := rfl
  have hne : ∀ k₀, k₀ ∈ (["type", "company", "role", "technologies"] : List String) →
      ∀ kv ∈ ((h.metrics).getD []).map (fun m => (m.1, MValue.int m.2)), kv.1 ≠ k₀ := by
    intro k₀ hk₀ kv hkv
    rcases List.mem_map.mp hkv with ⟨m, hm, rfl⟩
    intro hceq
    exact hdisj m hm (by rw [hceq]; exact hk₀)
  refine ⟨?_, ?_, ?_, ?_, ?_⟩
  · rw [hmeta, lookup_foldl_insertKV_of_not_mem _ _ _ (hne "type" (by simp))]
    rfl
  · rw [hmeta, lookup_foldl_insertKV_of_not_mem _ _ _ (hne "company" (by simp))]
    rfl
  · rw [hmeta, lookup_foldl_insertKV_of_not_mem _ _ _ (hne "role" (by simp))]
    rfl
  · rw [hmeta, lookup_foldl_insertKV_of_not_mem _ _ _ (hne "technologies" (by simp))]
    rfl
  · intro kv hkv
    rw [hmeta]
    have hnd2 : ((((h.metrics).getD []).map
        (fun m => (m.1, MValue.int m.2))).map Prod.fst).Nodup := by
      simpa [List.map_map, Function.comp_def] using hnd
    exact lookup_foldl_insertKV_mem _ _ hnd2 (kv.1, MValue.int kv.2)
      (List.mem_map_of_mem _ hkv)

/-- Claim C7 (counterexample): a highlight whose numeric metric is named
company has that metric spread over the company entry of the metadata
dict, so the metadata cannot also map company to the company name. -/
theorem C7_counterexample :
    (("company", (5 : Int)) ∈
      (({ achievement := "x", technologies := some ["t"],
          metrics := some [("company", 5)] } : Highlight).metrics).getD []) ∧
    List.lookup "company"
        (experienceDoc "Acme" "Dev"
          { achievement := "x", technologies := some ["t"],
            metrics := some [("company", 5)] }).metadata ≠
      some (MValue.str "Acme") :=
  ⟨by decide, by decide⟩

/-- Claim C7 (amended): every experience unit the normalizer produces has
metadata mapping type to experience, company to the company name, role to
the position title, technologies to the technologies list, and every
per-highlight numeric metric to its value as a top-level key — provided
the metric keys are pairwise distinct and disjoint from the four fixed
keys (a colliding metric key overwrites the fixed entry instead). -/
theorem C7_experience_metadata (r : Resume) (b : Basics) (emp : List Company)
    (ts : TechnicalSkills) (cats : List SkillCategory) (projs : List Project)
    (c : Company) (p : Position) (h : Highlight)
    (hb : r.basics = some b) (he : r.employment = some emp)
    (hts : r.technical_skills = some ts) (hc : ts.categories = some cats)
    (hp : r.projects = some projs)
    (hc1 : c ∈ emp) (hp1 : p ∈ c.positions) (hh1 : h ∈ p.highlights)
    (hnd : (((h.metrics).getD []).map Prod.fst).Nodup)
    (hdisj : ∀ kv ∈ (h.metrics).getD [],
      kv.1 ∉ (["type", "company", "role", "technologies"] : List String)) :
    ∃ docs, create_documents r = Except.ok docs ∧
      experienceDoc c.company p.title h ∈ docs ∧
      (List.lookup "type" (experienceDoc c.company p.title h).metadata =
          some (MValue.str "experience") ∧
       List.lookup "company" (experienceDoc c.company p.title h).metadata =
          some (MValue.str c.company) ∧
       List.lookup "role" (experienceDoc c.company p.title h).metadata =
          some (MValue.str p.title) ∧
       List.lookup "technologies" (experienceDoc c.company p.title h).metadata =
          some (MValue.strList ((h.technologies).getD [])) ∧
       ∀ kv ∈ (h.metrics).getD [],
         List.lookup kv.1 (experienceDoc c.company p.title h).metadata =
           some (MValue.int kv.2)) := by
  refine ⟨_, create_documents_ok r b emp ts cats projs hb he hts hc hp, ?_,
    experience_metadata_lookup c.company p.title h hnd hdisj⟩
  have hmem : experienceDoc c.company p.title h ∈ experience_docs emp := by
    simp only [experience_docs, List.mem_flatMap, List.mem_map]
    exact ⟨c, hc1, p, hp1, h, hh1, rfl⟩
  simp [List.mem_append, hmem]

/-- The highlight used to witness C7: one numeric metric. -/
def c7h : Highlight :=
  { achievement := "Led migration to AWS", technologies := some ["AWS"],
    metrics := some [("cost_reduction", 40)] }

/-- The position used to witness C7. -/
def c7p : Position := { title := "Dev", highlights := [c7h] }

/-- The company used to witness C7. -/
def c7c : Company := { company := "Acme", positions := [c7p] }

/-- The record used to witness C7. -/
def rec7w : Resume :=
  { basics := some { name := "A", summary := "S" },
    employment := some [c7c],
    technical_skills := some { categories := some [] },
    projects := some [] }

/-- Witness for the amended C7 on a concrete highlight with one metric. -/
theorem C7_experience_metadata_witness :
    (c7c ∈ [c7c] ∧ c7p ∈ c7c.positions ∧ c7h ∈ c7p.highlights ∧
     (((c7h.metrics).getD []).map Prod.fst).Nodup ∧
     (∀ kv ∈ (c7h.metrics).getD [],
       kv.1 ∉ (["type", "company", "role", "technologies"] : List String))) ∧
    (∃ docs, create_documents rec7w = Except.ok docs ∧
      experienceDoc c7c.company c7p.title c7h ∈ docs ∧
      (List.lookup "type" (experienceDoc c7c.company c7p.title c7h).metadata =
          some (MValue.str "experience") ∧
       List.lookup "company" (experienceDoc c7c.company c7p.title c7h).metadata =
          some (MValue.str c7c.company) ∧
       List.lookup "role" (experienceDoc c7c.company c7p.title c7h).metadata =
          some (MValue.str c7p.title) ∧
       List.lookup "technologies" (experienceDoc c7c.company c7p.title c7h).metadata =
          some (MValue.strList ((c7h.technologies).getD [])) ∧
       ∀ kv ∈ (c7h.metrics).getD [],
         List.lookup kv.1 (experienceDoc c7c.company c7p.title c7h).metadata =
           some (MValue.int kv.2))) :=
  ⟨⟨List.mem_singleton.mpr rfl, List.mem_singleton.mpr rfl,
    List.mem_singleton.mpr rfl, by decide, by decide⟩,
   C7_experience_metadata rec7w _ _ _ _ _ c7c c7p c7h rfl rfl rfl rfl rfl
     (List.mem_singleton.mpr rfl) (List.mem_singleton.mpr rfl)
     (List.mem_singleton.mpr rfl) (by decide) (by decide)⟩

/-- A record with the three required fields but no projects key. -/
def rec8a : Resume :=
  { basics := some { name := "A", summary := "S" },
    employment := some [],
    technical_skills := some { categories := some [] },
    projects := none }

/-- A record with the three required fields but no categories key under
technical_skills. -/
def rec8b : Resume :=
  { basics := some { name := "A", summary := "S" },
    employment := some [],
    technical_skills := some { categories := none },
    projects := some [] }

/-- Claim C8: records exist that pass load-time validation (all three
required top-level fields present) on which `create_documents`
nevertheless raises, by dereferencing the unchecked projects key or the
unchecked categories key; so passing validation does not guarantee
normalization succeeds. -/
theorem C8_validation_gap :
    load_resume rec8a = Except.ok rec8a ∧
    create_documents rec8a = Except.error "KeyError: projects" ∧
    main_pipeline rec8a = Except.error "KeyError: projects" ∧
    load_resume rec8b = Except.ok rec8b ∧
    create_documents rec8b = Except.error "KeyError: categories" ∧
    main_pipeline rec8b = Except.error "KeyError: categories" :=
  ⟨rfl, rfl, rfl, rfl, rfl, rfl⟩

/-- Claim C9: `display_results` on the empty result list raises an
IndexError from the unconditional read of the first element, rather than
rendering nothing; and the empty result is what the index search returns
when the built index is empty. -/
theorem C9_empty_results_crash :
    display_results [] = Except.error "IndexError: list index out of range" ∧
    ∀ (q : List ℚ) (k : Nat), index_search [] q k = [] := by
  refine ⟨rfl, ?_⟩
  intro q k
  simp [index_search]

/-- Claim C10: a project without a duration field gets metadata mapping
duration to the literal string Unknown instead of omitting the key, so
the produced document is identical to that of a project whose recorded
duration is the string Unknown. -/
theorem C10_duration_unknown (p : Project) (hdur : p.duration = none) :
    List.lookup "duration" (projectDoc p).metadata = some (MValue.str "Unknown") ∧
    projectDoc p = projectDoc { p with duration := some "Unknown" } := by
  constructor
  · have hm : (projectDoc p).metadata =
        [("type", MValue.str "project"),
         ("technologies", MValue.strList ((p.technologies).getD [])),
         ("duration", MValue.str ((p.duration).getD "Unknown"))] := rfl
    rw [hm, hdur]
    rfl
  · simp [projectDoc, hdur]

/-- The project used to witness C10. -/
def c10p : Project :=
  { name := "P", role := "R", technologies := some ["AWS"],
    achievements := some [{ description := "d", impact := "i" }],
    duration := none }

/-- Witness for C10 on a concrete project without a duration. -/
theorem C10_duration_unknown_witness :
    c10p.duration = none ∧
    (List.lookup "duration" (projectDoc c10p).metadata = some (MValue.str "Unknown") ∧
     projectDoc c10p = projectDoc { c10p with duration := some "Unknown" }) :=
  ⟨rfl, C10_duration_unknown c10p rfl⟩
